import Mathlib

/-!
Shallow embedding of the interpretation-and-dispatch core of the agent
repository (src/photos.py `PhotoAgent.default_handler` and src/github.py
`GitHubAgent.default_handler`), together with proofs about the claims of
the specification.

Modelling conventions:
- Python/JSON values are modelled by `JValue`; Python dicts by association
  lists (`JDict`) looked up with `dget` (first binding wins, as dict keys
  are unique).
- External collaborators (the Groq / ModelLake language-model clients, the
  Google Photos and GitHub REST helpers, and the stdlib `json.loads`) are
  passed in as record fields of an environment; each may fail, which is
  modelled by `Except String` carrying the exception message.
- A Python exception that is not caught by any `try/except` of the handler
  is modelled by the handler itself returning `Except.error`.
- Python `str` operations are modelled character-wise over `String.data`
  (Python slices/contains operate on characters): `pyLower`, `pyStrip`,
  `pyIn`, `pyDrop`, `pyDropRight`, `pySplit` mirror `str.lower`,
  `str.strip`, `in`, `s[n:]`, `s[:-n]`, `str.split`.  ASCII behaviour is
  identical to CPython; no claim depends on non-ASCII case mapping.
-/

/-- JSON-like value, the type of everything that flows through the handlers:
request payload entries, parsed LLM instructions, REST results, and the
response dictionaries the handlers return. -/
inductive JValue where
  | jnull
  | jbool (b : Bool)
  | jnum (n : Int)
  | jstr (s : String)
  | jarr (elems : List JValue)
  | jobj (fields : List (String × JValue))

/-- A Python dict with string keys, as an association list (keys unique). -/
abbrev JDict := List (String × JValue)

/-- Dict lookup, `d[k]` / `d.get(k)` without default. -/
def dget (fs : JDict) (k : String) : Option JValue :=
  List.lookup k fs

/-- Python `str.lower()` (character-wise; ASCII-faithful). -/
def pyLower (s : String) : String :=
  String.mk (s.data.map Char.toLower)

/-- Python `str.strip()`: remove leading and trailing whitespace. -/
def pyStrip (s : String) : String :=
  String.mk (((s.data.dropWhile Char.isWhitespace).reverse.dropWhile Char.isWhitespace).reverse)

/-- Python `sub in s` substring test. -/
def pyIn (sub s : String) : Bool :=
  decide (sub.data <:+: s.data)

/-- Python `s.startswith(p)`. -/
def pyStartsWith (s p : String) : Bool :=
  decide (p.data <+: s.data)

/-- Python `s.endswith(p)`. -/
def pyEndsWith (s p : String) : Bool :=
  decide (p.data <:+ s.data)

/-- Python slice `s[n:]` (character indexing). -/
def pyDrop (s : String) (n : Nat) : String :=
  String.mk (s.data.drop n)

/-- Python slice `s[:-n]` (character indexing). -/
def pyDropRight (s : String) (n : Nat) : String :=
  String.mk (s.data.take (s.data.length - n))

/-- Worker for `pySplit`: scans left to right, splitting at each
non-overlapping occurrence of `sep`, like CPython `str.split(sep)` with a
non-empty separator.  The `fuel` argument makes the recursion structural
(each step consumes at least one character, so `fuel = length` suffices
and the fuel-exhausted branch is unreachable). -/
def splitGo (sep : List Char) : Nat → List Char → List Char → List (List Char)
  | _, [], acc => [acc.reverse]
  | 0, l, acc => [acc.reverse ++ l]
  | fuel + 1, c :: cs, acc =>
    if sep.isPrefixOf (c :: cs) then
      acc.reverse :: splitGo sep fuel (List.drop (sep.length - 1) cs) []
    else
      splitGo sep fuel cs (c :: acc)

/-- Python `s.split(sep)` for a non-empty separator. -/
def pySplit (s sep : String) : List String :=
  (splitGo sep.data s.data.length s.data []).map String.mk

/-- Python truthiness of a JSON value (`if not x:` tests). -/
def pyTruthy : JValue → Bool
  | .jnull => false
  | .jbool b => b
  | .jnum n => decide (n ≠ 0)
  | .jstr s => decide (s ≠ "")
  | .jarr l => !l.isEmpty
  | .jobj l => !l.isEmpty

/-- Python truthiness of `dict.get(k)` (which yields `None` when absent). -/
def pyTruthyOpt : Option JValue → Bool
  | none => false
  | some v => pyTruthy v

/-- Python type name of a value, as it appears in runtime error messages. -/
def pyTypeName : JValue → String
  | .jnull => "NoneType"
  | .jbool _ => "bool"
  | .jnum _ => "int"
  | .jstr _ => "str"
  | .jarr _ => "list"
  | .jobj _ => "dict"

/-- Message of the `AttributeError` CPython raises when a method such as
`.get` or `.strip` is invoked on a value that does not have it. -/
def pyAttrError (v : JValue) (attr : String) : String :=
  "AttributeError: \x27" ++ pyTypeName v ++ "\x27 object has no attribute \x27" ++ attr ++ "\x27"

/-- Models Python `str()` for values interpolated into f-strings.
Containers are abbreviated; no claim depends on rendering non-scalars. -/
def pyStr : JValue → String
  | .jnull => "None"
  | .jbool true => "True"
  | .jbool false => "False"
  | .jnum n => toString n
  | .jstr s => s
  | .jarr _ => "[...]"
  | .jobj _ => "\x7b...\x7d"

/-- Calling a `str` method (`.strip()`, `.lower()`) on a value: succeeds
with the underlying string, raises `AttributeError` on any other type. -/
def pyAsStr (v : JValue) (attr : String) : Except String String :=
  match v with
  | .jstr s => .ok s
  | v => .error (pyAttrError v attr)

/-- Fence stripping shared by both handlers (src/github.py lines 96-100,
src/photos.py lines 166-169): drop a leading three-backtick-json fence and
a trailing three-backtick fence when present. -/
def stripFences (answer : String) : String :=
  let answer := if pyStartsWith answer "```json" then pyDrop answer 7 else answer
  if pyEndsWith answer "```" then pyDropRight answer 3 else answer

/-- Metadata dict of a photos request or of parsed LLM instructions; only
the keys `tag` and `album_name` are ever read (src/photos.py). -/
structure PhotoMeta where
  tag : Option JValue
  album_name : Option JValue

/-- External side-effecting collaborators of the photos agent
(src/photos.py `list_photos`, `search_photos_by_tag_parameter`,
`create_album`, `list_albums`).  Each returns `none` when the REST call
answers with a non-200 status (the Python functions return `None` then)
and may raise, which is the `Except.error` case. -/
structure PhotoActions where
  list_photos : Except String (Option (List JDict))
  search_photos_by_tag_parameter : JValue → Except String (Option (List JDict))
  create_album : JValue → Except String (Option JValue)
  list_albums : Except String (Option (List JDict))

/-- Environment of the photos agent: the REST collaborators, the Groq
client (prompt to completed answer, pre-`strip`), the `GROQ_API_KEY`
environment variable, and stdlib `json.loads`. -/
structure PhotosEnv where
  actions : PhotoActions
  groqKey : Option String
  llm : String → Except String String
  jsonParse : String → Except String JValue

/-- Incoming request payload of the photos agent: `query_text` and
`metadata` keys, each possibly absent. -/
structure PhotoPayload where
  query_text : Option String
  metadata : Option PhotoMeta

/-- Deterministic keyword matcher of the photos agent (src/photos.py lines
133-154): ordered, case-handled (the caller passes the lowercased text)
substring rules; `none` means fall through to the LLM path. -/
def photoMatch (lower : String) (md : PhotoMeta) : Option (String × PhotoMeta) :=
  if pyIn "list photos" lower || pyIn "list images" lower then
    some ("list photos", md)
  else if (pyIn "search photos" lower || pyIn "search images" lower ||
           pyIn "seach photos" lower || pyIn "seach images" lower) ||
          ((pyIn "search" lower || pyIn "seach" lower) &&
           (pyIn "photo" lower || pyIn "image" lower)) then
    let tag := md.tag.getD (.jstr "")
    if pyTruthy tag then
      some ("search photos", md)
    else
      if pyIn "search images of " lower then
        some ("search photos",
          { md with tag := some (.jstr (pyStrip ((pySplit lower "search images of ").getLastD ""))) })
      else
        some ("search photos", md)
  else if pyIn "create album" lower then
    some ("create album", md)
  else if pyIn "list albums" lower then
    some ("list albums", md)
  else
    none

/-- Projection applied to each Google Photos media item before it is put
in the response (src/photos.py lines 183-186 and 195-198). -/
def photoRecord (p : JDict) : JValue :=
  .jobj [("filename", (dget p "filename").getD (.jstr "Unnamed")),
         ("url", (dget p "baseUrl").getD (.jstr ""))]

/-- Projection applied to each album before it is put in the response
(src/photos.py lines 210-213). -/
def albumRecord (a : JDict) : JValue :=
  .jobj [("title", (dget a "title").getD (.jstr "Unnamed")),
         ("id", (dget a "id").getD (.jstr ""))]

/-- Python `if not photos:` over an optional list (both `None` and the
empty list are falsy). -/
def pyTruthyListOpt : Option (List JDict) → Bool
  | none => false
  | some l => !l.isEmpty

/-- Execution of the already-structured operation (src/photos.py lines
179-216).  `Except.error` is an exception propagating to the handler's
outer `except` clause. -/
def processPhotoOp (acts : PhotoActions) (operation : String) (metadata : PhotoMeta)
    (query_text : String) : Except String JDict :=
  if operation = "list photos" then
    match acts.list_photos with
    | .error e => .error e
    | .ok none => .ok [("response_text", .jstr "Failed to fetch photos.")]
    | .ok (some photos) =>
      .ok [("response_text", .jstr "Recent photos:"),
           ("photos", .jarr ((photos.take 10).map photoRecord))]
  else if operation = "search photos" then
    let tag := metadata.tag.getD (.jstr "")
    if pyTruthy tag = false then
      .ok [("response_text", .jstr "Please provide a tag for searching.")]
    else
      match acts.search_photos_by_tag_parameter tag with
      | .error e => .error e
      | .ok photos =>
        if pyTruthyListOpt photos = false then
          .ok [("response_text", .jstr ("No photos found with tag \x27" ++ pyStr tag ++ "\x27."))]
        else
          .ok [("response_text", .jstr ("Photos with tag \x27" ++ pyStr tag ++ "\x27:")),
               ("photos", .jarr ((photos.getD []).map photoRecord))]
  else if operation = "create album" then
    let album_name := metadata.album_name.getD (.jstr "New Album")
    match acts.create_album album_name with
    | .error e => .error e
    | .ok album_id =>
      if pyTruthyOpt album_id then
        .ok [("response_text", .jstr ("Album \x27" ++ pyStr album_name ++ "\x27 created successfully!")),
             ("album_id", album_id.getD .jnull)]
      else
        .ok [("response_text", .jstr "Failed to create album.")]
  else if operation = "list albums" then
    match acts.list_albums with
    | .error e => .error e
    | .ok albums =>
      if pyTruthyListOpt albums = false then
        .ok [("response_text", .jstr "No albums found.")]
      else
        .ok [("response_text", .jstr "Your albums:"),
             ("albums", .jarr ((albums.getD []).map albumRecord))]
  else
    .ok [("response_text", .jstr "Operation not recognized."), ("query_text", .jstr query_text)]

/-- Prompt the photos agent sends to Groq (src/photos.py lines 157-162). -/
def photoPrompt (query_text : String) : String :=
  "Convert the following natural language query into a JSON command for a photo agent that supports \x27list photos\x27, \x27search photos\x27 (with tag), \x27create album\x27 (with album_name), and \x27list albums\x27.\nQuery: \"" ++ query_text ++ "\"\nReturn JSON with key \x27operation\x27 and include additional keys if needed. Output only valid JSON."

/-- Models `call_groq_chat` (src/photos.py lines 84-110): raises when the
API key is missing, otherwise returns the accumulated streamed answer,
stripped. -/
def callGroqChat (env : PhotosEnv) (prompt : String) : Except String String :=
  match env.groqKey with
  | none => .error "GROQ_API_KEY environment variable is not set."
  | some _ => (env.llm prompt).map pyStrip

/-- Retrieval `instructions.get(key, default)`: `AttributeError` when the
parsed value is not a dict (src/photos.py line 172). -/
def jGetRaiseD (v : JValue) (k : String) (d : JValue) : Except String JValue :=
  match v with
  | .jobj fs => .ok ((dget fs k).getD d)
  | v => .error (pyAttrError v "get")

/-- Metadata extraction from parsed LLM instructions (src/photos.py lines
173-176); only reached when the instructions are a dict. -/
def buildPhotoMeta : JValue → PhotoMeta
  | .jobj fs => ⟨dget fs "tag", dget fs "album_name"⟩
  | _ => ⟨none, none⟩

/-- Body of the photos handler's `try` block (src/photos.py lines 129-216);
`Except.error` is an exception reaching the outer `except`. -/
def photosTryBody (env : PhotosEnv) (payload : PhotoPayload) : Except String JDict :=
  let query_text := pyStrip (payload.query_text.getD "")
  let lower_query := pyLower query_text
  match photoMatch lower_query (payload.metadata.getD ⟨none, none⟩) with
  | some (operation, metadata) => processPhotoOp env.actions operation metadata query_text
  | none =>
    match callGroqChat env (photoPrompt query_text) with
    | .error e => .error e
    | .ok llm_response =>
      match env.jsonParse (stripFences llm_response) with
      | .error e => .error e
      | .ok instructions =>
        match jGetRaiseD instructions "operation" (.jstr "") with
        | .error e => .error e
        | .ok opv =>
          match pyAsStr opv "strip" with
          | .error e => .error e
          | .ok ops =>
            processPhotoOp env.actions (pyLower (pyStrip ops)) (buildPhotoMeta instructions) query_text

/-- The photos agent's `default_handler` (src/photos.py lines 122-218):
every exception is caught and rendered as an `Error:` response; note that
photos responses never carry a `status` key. -/
def photosHandler (env : PhotosEnv) (payload : PhotoPayload) : JDict :=
  match photosTryBody env payload with
  | .ok d => d
  | .error e =>
    [("response_text", .jstr ("Error: " ++ e)),
     ("query_text", .jstr (pyStrip (payload.query_text.getD "")))]

/-- External side-effecting collaborators of the GitHub agent
(src/github.py lines 203-292).  The operations that print their output
return `Unit`; `list_repositories` and `get_repository_details` are called
with `return_output=True` and return the formatted string.  `Except.error`
models an exception raised during the call. -/
structure GHActions where
  create_repository : JValue → JValue → String → JValue → Except String Unit
  star_repository : JValue → JValue → Except String Unit
  unstar_repository : JValue → JValue → Except String Unit
  list_repositories : Except String String
  delete_repository : JValue → JValue → Except String Unit
  get_repository_details : JValue → JValue → Except String String
  fork_repository : JValue → JValue → Except String Unit

/-- Environment of the GitHub agent: REST collaborators, the ModelLake
chat client (prompt to extracted answer, pre-`strip`), and `json.loads`. -/
structure GHEnv where
  actions : GHActions
  llm : String → Except String String
  jsonParse : String → Except String JValue

/-- Incoming request payload of the GitHub agent. -/
structure GHPayload where
  query_text : Option String

/-- Prompt the GitHub agent sends to ModelLake (src/github.py lines 77-91). -/
def githubPrompt (query_text : String) : String :=
  "Context: Available GitHub operations:\n- create_repository: Create a repository. Requires \x27name\x27 (string), optional \x27description\x27 (string), \x27scope\x27 (public/private), \x27add_readme\x27 (boolean).\n- star_repository: Star a repository. Requires \x27owner\x27 (string), \x27repo\x27 (string).\n- unstar_repository: Unstar a repository. (Same parameters as starring.)\n- list_repositories: List the user’s repositories. No parameters.\n- delete_repository: Delete a repository. Requires \x27owner\x27 and \x27repo\x27.\n- get_repository_details: Get repository details. Requires \x27owner\x27 and \x27repo\x27.\n- fork_repository: Fork a repository. Requires \x27owner\x27 and \x27repo\x27.\nCommand: " ++ query_text ++ "\nOutput a JSON object with \x27operation\x27 (exactly one of the above) and any required parameters.\nExample 1: \x27Create private repo test with README\x27 -> \x7b\"operation\": \"create_repository\", \"name\": \"test\", \"scope\": \"private\", \"add_readme\": true\x7d\nExample 2: \x27Star octocat/hello\x27 -> \x7b\"operation\": \"star_repository\", \"owner\": \"octocat\", \"repo\": \"hello\"\x7d\nOutput only the JSON, no markdown or additional text."

/-- Models `call_modellake_chat` (src/github.py lines 29-47): the client
returns the `answer` field of the chat completion, which is stripped. -/
def callModellakeChat (env : GHEnv) (prompt : String) : Except String String :=
  (env.llm prompt).map pyStrip

/-- The second `try` block of the GitHub handler (src/github.py lines
129-194 before the `except`): string-dispatch on the operation name,
parameter extraction, and the actual REST call.  `Except.error` is an
exception to be caught by the `except` on line 192. -/
def dispatchGithub (acts : GHActions) (fs : JDict) (operation : String) :
    Except String (String × Int) :=
  if operation = "create_repository" then
    let name := dget fs "name"
    if pyTruthyOpt name = false then
      .error "Missing \x27name\x27 for repository creation."
    else
      let namev := name.getD .jnull
      let description := (dget fs "description").getD (.jstr "")
      match pyAsStr ((dget fs "scope").getD (.jstr "public")) "strip" with
      | .error e => .error e
      | .ok scopes =>
        let scope := pyLower (pyStrip scopes)
        let add_readme :=
          match (dget fs "add_readme").getD (.jbool false) with
          | .jstr s => .jbool (pyLower s = "true")
          | v => v
        match acts.create_repository namev description scope add_readme with
        | .error e => .error e
        | .ok _ => .ok ("Repository \x27" ++ pyStr namev ++ "\x27 created successfully.", 200)
  else if operation = "star_repository" then
    let owner := dget fs "owner"
    let repo := dget fs "repo"
    if pyTruthyOpt owner = false || pyTruthyOpt repo = false then
      .error "Missing \x27owner\x27 or \x27repo\x27 for starring."
    else
      match acts.star_repository (owner.getD .jnull) (repo.getD .jnull) with
      | .error e => .error e
      | .ok _ => .ok ("Starred " ++ pyStr (owner.getD .jnull) ++ "/" ++ pyStr (repo.getD .jnull) ++ ".", 200)
  else if operation = "unstar_repository" then
    let owner := dget fs "owner"
    let repo := dget fs "repo"
    if pyTruthyOpt owner = false || pyTruthyOpt repo = false then
      .error "Missing \x27owner\x27 or \x27repo\x27 for unstarring."
    else
      match acts.unstar_repository (owner.getD .jnull) (repo.getD .jnull) with
      | .error e => .error e
      | .ok _ => .ok ("Unstarred " ++ pyStr (owner.getD .jnull) ++ "/" ++ pyStr (repo.getD .jnull) ++ ".", 200)
  else if operation = "list_repositories" then
    match acts.list_repositories with
    | .error e => .error e
    | .ok repos_output => .ok (repos_output, 200)
  else if operation = "delete_repository" then
    let owner := dget fs "owner"
    let repo := dget fs "repo"
    if pyTruthyOpt owner = false || pyTruthyOpt repo = false then
      .error "Missing \x27owner\x27 or \x27repo\x27 for deletion."
    else
      match acts.delete_repository (owner.getD .jnull) (repo.getD .jnull) with
      | .error e => .error e
      | .ok _ => .ok ("Repository " ++ pyStr (owner.getD .jnull) ++ "/" ++ pyStr (repo.getD .jnull) ++ " deleted successfully.", 200)
  else if operation = "get_repository_details" then
    let owner := dget fs "owner"
    let repo := dget fs "repo"
    if pyTruthyOpt owner = false || pyTruthyOpt repo = false then
      .error "Missing \x27owner\x27 or \x27repo\x27 for getting details."
    else
      match acts.get_repository_details (owner.getD .jnull) (repo.getD .jnull) with
      | .error e => .error e
      | .ok details_output => .ok (details_output, 200)
  else if operation = "fork_repository" then
    let owner := dget fs "owner"
    let repo := dget fs "repo"
    if pyTruthyOpt owner = false || pyTruthyOpt repo = false then
      .error "Missing \x27owner\x27 or \x27repo\x27 for forking."
    else
      match acts.fork_repository (owner.getD .jnull) (repo.getD .jnull) with
      | .error e => .error e
      | .ok _ => .ok ("Repository " ++ pyStr (owner.getD .jnull) ++ "/" ++ pyStr (repo.getD .jnull) ++ " forked successfully.", 200)
  else
    .ok ("Operation \x27" ++ operation ++ "\x27 is not supported.", 400)

/-- Response envelope of the GitHub handler (src/github.py lines 196-200). -/
def ghEnvelope (text : String) (status : Int) (query_text : String) : JDict :=
  [("response_text", .jstr text), ("status", .jnum status), ("query_text", .jstr query_text)]

/-- The GitHub agent's `default_handler` (src/github.py lines 74-200).
The first `try` catches `json.JSONDecodeError` (envelope 400) and any
other exception of the LLM call (envelope 500); `instructions.get` and
`operation.strip()` on lines 117/125 sit outside every `try`, so their
`AttributeError` propagates out of the handler, modelled by
`Except.error`. -/
def githubHandler (env : GHEnv) (payload : GHPayload) : Except String JDict :=
  let query_text := payload.query_text.getD "No query provided"
  match callModellakeChat env (githubPrompt query_text) with
  | .error e => .ok (ghEnvelope ("Error processing command: " ++ e) 500 query_text)
  | .ok answer =>
    match env.jsonParse (stripFences answer) with
    | .error e => .ok (ghEnvelope ("Failed to parse instructions: " ++ e) 400 query_text)
    | .ok instructions =>
      match instructions with
      | .jobj fs =>
        let opv := (dget fs "operation").getD .jnull
        if pyTruthy opv = false then
          .ok (ghEnvelope "No operation specified in the instructions." 400 query_text)
        else
          match pyAsStr opv "strip" with
          | .error e => .error e
          | .ok ops =>
            match dispatchGithub env.actions fs (pyLower (pyStrip ops)) with
            | .ok (response_text, status) => .ok (ghEnvelope response_text status query_text)
            | .error e => .ok (ghEnvelope ("Error executing operation: " ++ e) 500 query_text)
      | v => .error (pyAttrError v "get")

/-- A string rebuilt from its character list is itself. -/
theorem stringMk_data (s : String) : String.mk s.data = s := rfl

/-- Substring containment is transitive. -/
theorem pyIn_trans {a b c : String} (h1 : pyIn a b = true) (h2 : pyIn b c = true) :
    pyIn a c = true := by
  unfold pyIn at *
  exact decide_eq_true ((of_decide_eq_true h1).trans (of_decide_eq_true h2))

/-- Stripping the fences from a string that is exactly the content wrapped
in a leading json fence and a trailing fence recovers the content. -/
theorem stripFences_fence_wrap (s : String) :
    stripFences ("```json" ++ s ++ "```") = s := by
  have hdata : ("```json" ++ s ++ "```").data = "```json".data ++ (s.data ++ "```".data) := by
    rw [String.data_append, String.data_append, List.append_assoc]
  have h1 : pyStartsWith ("```json" ++ s ++ "```") "```json" = true := by
    unfold pyStartsWith
    rw [hdata]
    exact decide_eq_true ⟨s.data ++ "```".data, rfl⟩
  have h2 : pyDrop ("```json" ++ s ++ "```") 7 = String.mk (s.data ++ "```".data) := by
    unfold pyDrop
    rw [hdata]
    have : (7 : Nat) = "```json".data.length := rfl
    rw [this, List.drop_left]
  have h3 : pyEndsWith (String.mk (s.data ++ "```".data)) "```" = true :=
    decide_eq_true ⟨s.data, rfl⟩
  have h4 : pyDropRight (String.mk (s.data ++ "```".data)) 3 = s := by
    unfold pyDropRight
    have hlen : (s.data ++ "```".data).length - 3 = s.data.length := by
      rw [List.length_append]
      rfl
    show String.mk ((s.data ++ "```".data).take ((s.data ++ "```".data).length - 3)) = s
    rw [hlen, List.take_left, stringMk_data]
  unfold stripFences
  rw [h1]
  show (if pyEndsWith (pyDrop ("```json" ++ s ++ "```") 7) "```" = true then
          pyDropRight (pyDrop ("```json" ++ s ++ "```") 7) 3
        else pyDrop ("```json" ++ s ++ "```") 7) = s
  rw [h2, h3, if_pos rfl, h4]

/-- C5: for every string s, applying the fence-stripping step to
"```json" ++ s ++ "```" and then parsing yields exactly the same parsed
instructions as parsing s directly, for any parser whatsoever: an LLM
response wrapped in json fences parses identically to the unwrapped
content. -/
theorem fence_wrap_parse_roundtrip {α : Type} (parse : String → α) (s : String) :
    parse (stripFences ("```json" ++ s ++ "```")) = parse s := by
  rw [stripFences_fence_wrap]

/-- C1: whenever the deterministic matcher matches the (lowercased,
stripped) query text, the photos handler never consults the language-model
client: its result is identical for any two clients, including one that
always fails. -/
theorem matcher_hit_bypasses_llm (env : PhotosEnv) (f g : String → Except String String)
    (payload : PhotoPayload)
    (h : (photoMatch (pyLower (pyStrip (payload.query_text.getD "")))
           (payload.metadata.getD ⟨none, none⟩)).isSome = true) :
    photosHandler { env with llm := f } payload = photosHandler { env with llm := g } payload := by
  unfold photosHandler photosTryBody
  cases hm : photoMatch (pyLower (pyStrip (payload.query_text.getD "")))
      (payload.metadata.getD ⟨none, none⟩) with
  | none => rw [hm] at h; simp at h
  | some x =>
    obtain ⟨operation, metadata⟩ := x
    simp only [hm]

/-- Stub photo collaborators used to instantiate hypotheses at concrete
inputs. -/
def photoActsStub : PhotoActions :=
  ⟨.ok (some []), fun _ => .ok (some []), fun _ => .ok (some (.jstr "album-1")), .ok (some [])⟩

/-- Concrete photos environment with a trivial LLM and parser stub. -/
def photosEnvStub : PhotosEnv :=
  ⟨photoActsStub, some "key", fun _ => .ok "", fun _ => .error "Expecting value: line 1 column 1 (char 0)"⟩

/-- Witness for C1 at the concrete query "list photos": the matcher fires
and an always-failing client yields the same envelope as a working one. -/
theorem matcher_hit_bypasses_llm_witness :
    (photoMatch (pyLower (pyStrip ((some "list photos" : Option String).getD "")))
       ((none : Option PhotoMeta).getD ⟨none, none⟩)).isSome = true
    ∧ photosHandler { photosEnvStub with llm := fun _ => .error "LanguageModelClient invoked" }
        ⟨some "list photos", none⟩
      = photosHandler { photosEnvStub with llm := fun _ => .ok "" } ⟨some "list photos", none⟩ :=
  ⟨rfl, matcher_hit_bypasses_llm photosEnvStub _ _ ⟨some "list photos", none⟩ rfl⟩

/-- C7 counterexample: the query "list photos then search images of cats"
contains the delimiter phrase and supplies no tag, yet the matcher
resolves it to the list-photos operation (the list rule is checked first),
not to search-photos with an extracted tag. -/
theorem search_phrase_priority_counterexample :
    pyIn "search images of " (pyLower (pyStrip "list photos then search images of cats")) = true
    ∧ (photoMatch (pyLower (pyStrip "list photos then search images of cats")) ⟨none, none⟩).map
        Prod.fst = some "list photos" :=
  ⟨rfl, rfl⟩

/-- C7 (amended): for every lowercased text that contains the delimiter
phrase "search images of " and contains neither "list photos" nor
"list images", if no tag was supplied, the matcher resolves to the
search-photos operation with tag equal to the final segment of the
lowercased text split on the phrase (the text after its last occurrence),
trimmed of surrounding whitespace. -/
theorem search_tag_extraction (lower : String) (md : PhotoMeta)
    (h1 : pyIn "search images of " lower = true)
    (h2 : pyIn "list photos" lower = false)
    (h3 : pyIn "list images" lower = false)
    (h4 : md.tag = none) :
    photoMatch lower md =
      some ("search photos",
        { md with tag := some (.jstr (pyStrip ((pySplit lower "search images of ").getLastD ""))) }) := by
  have hsub : pyIn "search images" "search images of " = true := rfl
  have hsi : pyIn "search images" lower = true := pyIn_trans hsub h1
  unfold photoMatch
  rw [h1, h2, h3, h4, hsi]
  simp [pyTruthy]

/-- Witness for the amended C7 at the concrete text
"search images of cats": tag "cats" is extracted. -/
theorem search_tag_extraction_witness :
    photoMatch "search images of cats" ⟨none, none⟩ =
      some ("search photos", ⟨some (.jstr "cats"), none⟩) :=
  search_tag_extraction "search images of cats" ⟨none, none⟩ rfl rfl rfl rfl

/-- C9: whenever the list-photos operation runs and the collaborator
returns a photo list, the response holds at most 10 photos, each reduced
to a record with exactly the keys filename and url, substituting "Unnamed"
for a missing filename and the empty string for a missing baseUrl. -/
theorem list_photos_truncated_projection (acts : PhotoActions) (md : PhotoMeta)
    (q : String) (items : List JDict)
    (h : acts.list_photos = .ok (some items)) :
    processPhotoOp acts "list photos" md q =
      .ok [("response_text", .jstr "Recent photos:"),
           ("photos", .jarr ((items.take 10).map photoRecord))]
    ∧ ((items.take 10).map photoRecord).length ≤ 10
    ∧ ∀ j ∈ (items.take 10).map photoRecord, ∃ p, p ∈ items ∧
        j = .jobj [("filename", (dget p "filename").getD (.jstr "Unnamed")),
                   ("url", (dget p "baseUrl").getD (.jstr ""))] := by
  refine ⟨?_, ?_, ?_⟩
  · unfold processPhotoOp
    rw [h]
    rfl
  · rw [List.length_map, List.length_take]
    exact min_le_left _ _
  · intro j hj
    obtain ⟨p, hp, hpj⟩ := List.mem_map.mp hj
    exact ⟨p, List.take_subset _ _ hp, hpj.symm⟩

/-- Twelve-item photo list used to instantiate C9 at a concrete input. -/
def photoItemsTwelve : List JDict :=
  (List.range 12).map fun i => [("filename", .jstr (toString i))]

/-- Witness for C9: with twelve available photos the success response is
produced and the projected list has at most ten entries. -/
theorem list_photos_truncated_projection_witness :
    processPhotoOp { photoActsStub with list_photos := .ok (some photoItemsTwelve) }
        "list photos" ⟨none, none⟩ "list photos" =
      .ok [("response_text", .jstr "Recent photos:"),
           ("photos", .jarr ((photoItemsTwelve.take 10).map photoRecord))]
    ∧ ((photoItemsTwelve.take 10).map photoRecord).length ≤ 10 :=
  ⟨(list_photos_truncated_projection _ _ _ _ rfl).1,
   (list_photos_truncated_projection
      { photoActsStub with list_photos := .ok (some photoItemsTwelve) } ⟨none, none⟩
      "list photos" photoItemsTwelve rfl).2.1⟩

/-- C10: a create-album request without an album_name parameter does not
fail with a missing-parameter error: the album is created under the
default name "New Album" and that name is reported in the success
message. -/
theorem create_album_default_name (acts : PhotoActions) (md : PhotoMeta)
    (q : String) (idv : JValue)
    (h1 : md.album_name = none)
    (h2 : acts.create_album (.jstr "New Album") = .ok (some idv))
    (h3 : pyTruthy idv = true) :
    processPhotoOp acts "create album" md q =
      .ok [("response_text", .jstr "Album \x27New Album\x27 created successfully!"),
           ("album_id", idv)] := by
  unfold processPhotoOp
  rw [if_neg (by decide), if_neg (by decide)]
  rw [if_pos rfl]
  rw [h1]
  show (match acts.create_album (.jstr "New Album") with
        | .error e => .error e
        | .ok album_id =>
          if pyTruthyOpt album_id then
            .ok [("response_text", .jstr ("Album \x27" ++ pyStr (.jstr "New Album") ++ "\x27 created successfully!")),
                 ("album_id", album_id.getD .jnull)]
          else .ok [("response_text", .jstr "Failed to create album.")] : Except String JDict) = _
  rw [h2]
  simp [pyTruthyOpt, h3]
  rfl

/-- Witness for C10 with a concrete collaborator returning album id
"album-1". -/
theorem create_album_default_name_witness :
    processPhotoOp photoActsStub "create album" ⟨none, none⟩ "create album" =
      .ok [("response_text", .jstr "Album \x27New Album\x27 created successfully!"),
           ("album_id", .jstr "album-1")] :=
  create_album_default_name photoActsStub ⟨none, none⟩ "create album" (.jstr "album-1") rfl rfl rfl

/-- Stub GitHub collaborators that all succeed. -/
def ghActsStub : GHActions :=
  ⟨fun _ _ _ _ => .ok (), fun _ _ => .ok (), fun _ _ => .ok (), .ok "Your repositories:\n",
   fun _ _ => .ok (), fun _ _ => .ok "Repository: octocat/hello\n", fun _ _ => .ok ()⟩

/-- Concrete GitHub environment whose LLM answers with a
create_repository instruction that lacks the name parameter; the parser
stub returns exactly what json.loads yields on that reply. -/
def ghEnvNoName : GHEnv :=
  ⟨ghActsStub, fun _ => .ok "\x7b\"operation\": \"create_repository\"\x7d",
   fun _ => .ok (.jobj [("operation", .jstr "create_repository")])⟩

/-- C2 counterexample: a request resolving to create_repository with no
name parameter yields an envelope with status 500, not the claimed 400:
the missing-name ValueError is raised inside the execution try-block and
caught by its generic except-clause. -/
theorem create_repo_missing_name_counterexample :
    githubHandler ghEnvNoName ⟨some "create a repository"⟩ =
      .ok [("response_text", .jstr "Error executing operation: Missing \x27name\x27 for repository creation."),
           ("status", .jnum 500), ("query_text", .jstr "create a repository")] :=
  rfl

/-- C2 (amended): for every request whose resolved operation is
create_repository but whose parameter mapping lacks a truthy name value,
the handler fails with a message naming the missing name parameter, the
returned envelope has status 500 (the ValueError raised before the REST
call is handled by the generic execution except-clause, not by a
dedicated validation step), and the create_repository collaborator is
never invoked: the outcome is independent of it. -/
theorem create_repo_missing_name_amended (env : GHEnv) (payload : GHPayload)
    (a : String) (fs : JDict)
    (h1 : env.llm (githubPrompt (payload.query_text.getD "No query provided")) = .ok a)
    (h2 : env.jsonParse (stripFences (pyStrip a)) = .ok (.jobj fs))
    (h3 : dget fs "operation" = some (.jstr "create_repository"))
    (h4 : pyTruthyOpt (dget fs "name") = false) :
    githubHandler env payload =
      .ok (ghEnvelope "Error executing operation: Missing \x27name\x27 for repository creation." 500
        (payload.query_text.getD "No query provided"))
    ∧ ∀ cr, githubHandler { env with actions := { env.actions with create_repository := cr } } payload
        = githubHandler env payload := by
  have hpt : pyTruthy (JValue.jstr "create_repository") = true := rfl
  have hops : pyLower (pyStrip "create_repository") = "create_repository" := rfl
  have hbody : ∀ env' : GHEnv, env'.llm = env.llm → env'.jsonParse = env.jsonParse →
      githubHandler env' payload =
        .ok (ghEnvelope "Error executing operation: Missing \x27name\x27 for repository creation." 500
          (payload.query_text.getD "No query provided")) := by
    intro env' hl hp
    have hdisp : dispatchGithub env'.actions fs "create_repository" =
        .error "Missing \x27name\x27 for repository creation." := by
      unfold dispatchGithub
      rw [if_pos rfl, if_pos h4]
    unfold githubHandler callModellakeChat
    rw [hl, hp]
    simp only [h1, Except.map, h2, h3, Option.getD_some, hpt, pyAsStr, hops, hdisp]
    rw [if_neg (by decide : ¬ (true = false))]
    rfl
  refine ⟨hbody env rfl rfl, fun cr => ?_⟩
  rw [hbody env rfl rfl, hbody { env with actions := { env.actions with create_repository := cr } } rfl rfl]

/-- Witness for the amended C2 at the concrete no-name environment. -/
theorem create_repo_missing_name_amended_witness :
    githubHandler ghEnvNoName ⟨some "make me a repo"⟩ =
      .ok (ghEnvelope "Error executing operation: Missing \x27name\x27 for repository creation." 500
        "make me a repo") :=
  (create_repo_missing_name_amended ghEnvNoName ⟨some "make me a repo"⟩
    "\x7b\"operation\": \"create_repository\"\x7d" [("operation", .jstr "create_repository")]
    rfl rfl rfl rfl).1

/-- Concrete GitHub environment whose LLM answers with a well-formed JSON
array (json.loads parses "[1, 2]" to a list, not an object). -/
def ghEnvArr : GHEnv :=
  ⟨ghActsStub, fun _ => .ok "[1, 2]", fun _ => .ok (.jarr [.jnum 1, .jnum 2])⟩

/-- C3 counterexample: when the LLM output parses to a well-formed
non-object, the GitHub handler does not return an envelope: the
`instructions.get` call sits outside every try-block and its
AttributeError propagates out of the handler uncaught. -/
theorem parse_nonobject_raises_counterexample :
    githubHandler ghEnvArr ⟨some "do something vague"⟩ =
      .error "AttributeError: \x27list\x27 object has no attribute \x27get\x27" :=
  rfl

/-- C3 (amended): on the LLM path, (1) non-well-formed JSON makes the
GitHub handler return an envelope with status 400 explaining the parse
failure; (2) well-formed JSON that is not an object makes the GitHub
handler raise an uncaught AttributeError instead of returning; (3) an
object without an operation key yields envelope status 400; (4) on the
photos agent a parse failure is caught but the returned envelope explains
the failure without any status field. -/
theorem parse_failure_envelopes_amended :
    (∀ (env : GHEnv) (payload : GHPayload) (a e : String),
       env.llm (githubPrompt (payload.query_text.getD "No query provided")) = .ok a →
       env.jsonParse (stripFences (pyStrip a)) = .error e →
       githubHandler env payload =
         .ok (ghEnvelope ("Failed to parse instructions: " ++ e) 400
           (payload.query_text.getD "No query provided")))
    ∧ (∀ (env : GHEnv) (payload : GHPayload) (a : String) (v : JValue),
       env.llm (githubPrompt (payload.query_text.getD "No query provided")) = .ok a →
       env.jsonParse (stripFences (pyStrip a)) = .ok v →
       (∀ fs, v ≠ .jobj fs) →
       githubHandler env payload = .error (pyAttrError v "get"))
    ∧ (∀ (env : GHEnv) (payload : GHPayload) (a : String) (fs : JDict),
       env.llm (githubPrompt (payload.query_text.getD "No query provided")) = .ok a →
       env.jsonParse (stripFences (pyStrip a)) = .ok (.jobj fs) →
       dget fs "operation" = none →
       githubHandler env payload =
         .ok (ghEnvelope "No operation specified in the instructions." 400
           (payload.query_text.getD "No query provided")))
    ∧ (∀ (env : PhotosEnv) (payload : PhotoPayload) (k a e : String),
       photoMatch (pyLower (pyStrip (payload.query_text.getD "")))
         (payload.metadata.getD ⟨none, none⟩) = none →
       env.groqKey = some k →
       env.llm (photoPrompt (pyStrip (payload.query_text.getD ""))) = .ok a →
       env.jsonParse (stripFences (pyStrip a)) = .error e →
       photosHandler env payload =
         [("response_text", .jstr ("Error: " ++ e)),
          ("query_text", .jstr (pyStrip (payload.query_text.getD "")))]) := by
  refine ⟨?_, ?_, ?_, ?_⟩
  · intro env payload a e h1 h2
    unfold githubHandler callModellakeChat
    simp only [h1, Except.map, h2]
  · intro env payload a v h1 h2 h3
    unfold githubHandler callModellakeChat
    cases v with
    | jobj fs => exact absurd rfl (h3 fs)
    | jnull => simp only [h1, Except.map, h2]
    | jbool b => simp only [h1, Except.map, h2]
    | jnum n => simp only [h1, Except.map, h2]
    | jstr s => simp only [h1, Except.map, h2]
    | jarr l => simp only [h1, Except.map, h2]
  · intro env payload a fs h1 h2 h3
    unfold githubHandler callModellakeChat
    simp only [h1, Except.map, h2, h3, Option.getD_none]
    rw [if_pos (show pyTruthy JValue.jnull = false from rfl)]
  · intro env payload k a e hm hk h1 h2
    unfold photosHandler photosTryBody callGroqChat
    simp only [hm, hk, h1, Except.map, h2]

/-- Concrete GitHub environment whose LLM answers non-JSON prose, on
which json.loads fails. -/
def ghEnvBadParse : GHEnv :=
  ⟨ghActsStub, fun _ => .ok "I cannot help",
   fun _ => .error "Expecting value: line 1 column 1 (char 0)"⟩

/-- Witness for the amended C3 at the concrete non-JSON reply. -/
theorem parse_failure_envelopes_amended_witness :
    githubHandler ghEnvBadParse ⟨some "do something vague"⟩ =
      .ok (ghEnvelope ("Failed to parse instructions: " ++ "Expecting value: line 1 column 1 (char 0)")
        400 "do something vague") :=
  parse_failure_envelopes_amended.1 ghEnvBadParse ⟨some "do something vague"⟩
    "I cannot help" "Expecting value: line 1 column 1 (char 0)" rfl rfl

/-- Concrete photos environment whose list_photos collaborator raises. -/
def photosEnvBoom : PhotosEnv :=
  ⟨{ photoActsStub with list_photos := .error "boom" }, some "key",
   fun _ => .ok "", fun _ => .error "Expecting value: line 1 column 1 (char 0)"⟩

/-- C4 counterexample: when the photos list_photos collaborator raises,
the exception is caught and explained, but the returned envelope carries
no status key at all, so it does not have the claimed non-200 (500)
status. -/
theorem handler_exception_no_status_counterexample :
    photosHandler photosEnvBoom ⟨some "list photos", none⟩ =
      [("response_text", .jstr "Error: boom"), ("query_text", .jstr "list photos")]
    ∧ List.lookup "status" (photosHandler photosEnvBoom ⟨some "list photos", none⟩) = none :=
  ⟨rfl, rfl⟩

/-- C4 (amended): a handler exception never propagates out of the request
handler.  (1) In the GitHub agent any failure of the dispatch step is
captured and becomes an envelope with status 500 whose text contains the
exception message; (2) an exception of the star_repository collaborator
is such a dispatch failure, carrying the collaborator's message; (3) in
the photos agent the exception is caught and reported as an
"Error: message" envelope, which however carries no status field. -/
theorem handler_exception_captured_amended :
    (∀ (env : GHEnv) (payload : GHPayload) (a s msg : String) (fs : JDict),
       env.llm (githubPrompt (payload.query_text.getD "No query provided")) = .ok a →
       env.jsonParse (stripFences (pyStrip a)) = .ok (.jobj fs) →
       dget fs "operation" = some (.jstr s) →
       pyTruthy (.jstr s) = true →
       dispatchGithub env.actions fs (pyLower (pyStrip s)) = .error msg →
       githubHandler env payload =
         .ok (ghEnvelope ("Error executing operation: " ++ msg) 500
           (payload.query_text.getD "No query provided")))
    ∧ (∀ (acts : GHActions) (fs : JDict) (o r : JValue) (msg : String),
       dget fs "owner" = some o → pyTruthy o = true →
       dget fs "repo" = some r → pyTruthy r = true →
       acts.star_repository o r = .error msg →
       dispatchGithub acts fs "star_repository" = .error msg)
    ∧ (∀ (env : PhotosEnv) (payload : PhotoPayload) (op : String) (md : PhotoMeta) (msg : String),
       photoMatch (pyLower (pyStrip (payload.query_text.getD "")))
         (payload.metadata.getD ⟨none, none⟩) = some (op, md) →
       processPhotoOp env.actions op md (pyStrip (payload.query_text.getD "")) = .error msg →
       photosHandler env payload =
         [("response_text", .jstr ("Error: " ++ msg)),
          ("query_text", .jstr (pyStrip (payload.query_text.getD "")))]) := by
  refine ⟨?_, ?_, ?_⟩
  · intro env payload a s msg fs h1 h2 h3 h4 h5
    unfold githubHandler callModellakeChat
    simp only [h1, Except.map, h2, h3, Option.getD_some, h4, pyAsStr, h5]
    rw [if_neg (by decide : ¬ (true = false))]
  · intro acts fs o r msg h1 h2 h3 h4 h5
    unfold dispatchGithub
    rw [if_neg (by decide : ¬ ("star_repository" = "create_repository")), if_pos rfl]
    simp only [h1, h3, pyTruthyOpt, h2, h4, Option.getD_some, h5]
    rw [if_neg (by decide : ¬ ((decide (true = false) || decide (true = false)) = true))]
  · intro env payload op md msg hm hp
    unfold photosHandler photosTryBody
    simp only [hm, hp]

/-- Witness for the amended C4: the raising list_photos collaborator at
the concrete query "list photos". -/
theorem handler_exception_captured_amended_witness :
    photosHandler photosEnvBoom ⟨some "list photos", none⟩ =
      [("response_text", .jstr ("Error: " ++ "boom")),
       ("query_text", .jstr (pyStrip ((some "list photos" : Option String).getD "")))] :=
  handler_exception_captured_amended.2.2 photosEnvBoom ⟨some "list photos", none⟩
    "list photos" ⟨none, none⟩ "boom" rfl rfl

/-- Eleven-item photo list whose items carry an extra mimeType key. -/
def photoItemsEleven : List JDict :=
  (List.range 11).map fun i => [("filename", .jstr (toString i)), ("mimeType", .jstr "image/png")]

/-- C6 counterexample: the list-photos dispatch does not place the
handler's return value in the response unchanged: eleven returned items
become ten records, each reduced to filename/url (the mimeType key is
dropped and a url key substituted). -/
theorem dispatch_payload_reshaped_counterexample :
    processPhotoOp { photoActsStub with list_photos := .ok (some photoItemsEleven) }
        "list photos" ⟨none, none⟩ "list photos" =
      .ok [("response_text", .jstr "Recent photos:"),
           ("photos", .jarr ((photoItemsEleven.take 10).map photoRecord))]
    ∧ ((photoItemsEleven.take 10).map photoRecord).length ≠ photoItemsEleven.length
    ∧ ((photoItemsEleven.take 10).map photoRecord).getLastD .jnull =
        .jobj [("filename", .jstr "9"), ("url", .jstr "")] :=
  ⟨rfl, by decide, rfl⟩

/-- C6 (amended): the GitHub dispatch places the string produced by an
output-returning handler verbatim in the response (shown for
list_repositories end to end and for get_repository_details at the
dispatch step), with status 200; the photos dispatch instead reshapes the
items a photo handler returns into filename/url records (shown for
search-photos, which keeps all items; list-photos additionally truncates
to ten, see the C9 theorem). -/
theorem dispatch_payload_passthrough_amended :
    (∀ (env : GHEnv) (payload : GHPayload) (a s : String) (fs : JDict),
       env.llm (githubPrompt (payload.query_text.getD "No query provided")) = .ok a →
       env.jsonParse (stripFences (pyStrip a)) = .ok (.jobj fs) →
       dget fs "operation" = some (.jstr "list_repositories") →
       env.actions.list_repositories = .ok s →
       githubHandler env payload =
         .ok (ghEnvelope s 200 (payload.query_text.getD "No query provided")))
    ∧ (∀ (acts : GHActions) (fs : JDict) (o r : JValue) (s : String),
       dget fs "owner" = some o → pyTruthy o = true →
       dget fs "repo" = some r → pyTruthy r = true →
       acts.get_repository_details o r = .ok s →
       dispatchGithub acts fs "get_repository_details" = .ok (s, 200))
    ∧ (∀ (acts : PhotoActions) (md : PhotoMeta) (q : String) (t : JValue) (items : List JDict),
       md.tag = some t → pyTruthy t = true →
       acts.search_photos_by_tag_parameter t = .ok (some items) → items ≠ [] →
       processPhotoOp acts "search photos" md q =
         .ok [("response_text", .jstr ("Photos with tag \x27" ++ pyStr t ++ "\x27:")),
              ("photos", .jarr (items.map photoRecord))]) := by
  refine ⟨?_, ?_, ?_⟩
  · intro env payload a s fs h1 h2 h3 h4
    have hops : pyLower (pyStrip "list_repositories") = "list_repositories" := rfl
    have hdisp : dispatchGithub env.actions fs "list_repositories" = .ok (s, 200) := by
      unfold dispatchGithub
      rw [if_neg (by decide : ¬ ("list_repositories" = "create_repository")),
          if_neg (by decide : ¬ ("list_repositories" = "star_repository")),
          if_neg (by decide : ¬ ("list_repositories" = "unstar_repository")),
          if_pos rfl, h4]
    unfold githubHandler callModellakeChat
    simp only [h1, Except.map, h2, h3, Option.getD_some, pyAsStr, hops, hdisp]
    rw [if_neg (by decide : ¬ (pyTruthy (JValue.jstr "list_repositories") = false))]
  · intro acts fs o r s h1 h2 h3 h4 h5
    unfold dispatchGithub
    rw [if_neg (by decide : ¬ ("get_repository_details" = "create_repository")),
        if_neg (by decide : ¬ ("get_repository_details" = "star_repository")),
        if_neg (by decide : ¬ ("get_repository_details" = "unstar_repository")),
        if_neg (by decide : ¬ ("get_repository_details" = "list_repositories")),
        if_neg (by decide : ¬ ("get_repository_details" = "delete_repository")),
        if_pos rfl]
    simp only [h1, h3, pyTruthyOpt, h2, h4, Option.getD_some, h5]
    rw [if_neg (by decide : ¬ ((decide (true = false) || decide (true = false)) = true))]
  · intro acts md q t items h1 h2 h3 h4
    unfold processPhotoOp
    rw [if_neg (by decide : ¬ ("search photos" = "list photos")), if_pos rfl, h1]
    simp only [Option.getD_some, h2, h3, pyTruthyListOpt]
    rw [if_neg (by decide : ¬ (true = false))]
    have hne : items.isEmpty = false := by
      cases items with
      | nil => exact absurd rfl h4
      | cons x xs => rfl
    rw [hne]
    rfl

/-- Concrete GitHub environment resolving to list_repositories. -/
def ghEnvListRepos : GHEnv :=
  ⟨ghActsStub, fun _ => .ok "\x7b\"operation\": \"list_repositories\"\x7d",
   fun _ => .ok (.jobj [("operation", .jstr "list_repositories")])⟩

/-- Witness for the amended C6: the string returned by the
list_repositories collaborator appears verbatim in the envelope. -/
theorem dispatch_payload_passthrough_amended_witness :
    githubHandler ghEnvListRepos ⟨some "list my repos"⟩ =
      .ok (ghEnvelope "Your repositories:\n" 200 "list my repos") :=
  dispatch_payload_passthrough_amended.1 ghEnvListRepos ⟨some "list my repos"⟩
    "\x7b\"operation\": \"list_repositories\"\x7d" "Your repositories:\n"
    [("operation", .jstr "list_repositories")] rfl rfl rfl rfl

/-- C8: the language-model client is invoked at most once per request and
never retried.  (1)/(2) The result of either handler depends on the
client only through its value at the single prompt built from the query
text: two clients agreeing there yield identical envelopes; (3)/(4) a
failing client call ends the resolution: the handler returns the error
envelope at once, independently of every action collaborator (so nothing
further is attempted). -/
theorem llm_invoked_at_most_once :
    (∀ (env : PhotosEnv) (f g : String → Except String String) (payload : PhotoPayload),
       f (photoPrompt (pyStrip (payload.query_text.getD ""))) =
         g (photoPrompt (pyStrip (payload.query_text.getD ""))) →
       photosHandler { env with llm := f } payload = photosHandler { env with llm := g } payload)
    ∧ (∀ (env : GHEnv) (f g : String → Except String String) (payload : GHPayload),
       f (githubPrompt (payload.query_text.getD "No query provided")) =
         g (githubPrompt (payload.query_text.getD "No query provided")) →
       githubHandler { env with llm := f } payload = githubHandler { env with llm := g } payload)
    ∧ (∀ (env : PhotosEnv) (payload : PhotoPayload) (k e : String),
       photoMatch (pyLower (pyStrip (payload.query_text.getD "")))
         (payload.metadata.getD ⟨none, none⟩) = none →
       env.groqKey = some k →
       env.llm (photoPrompt (pyStrip (payload.query_text.getD ""))) = .error e →
       photosHandler env payload =
         [("response_text", .jstr ("Error: " ++ e)),
          ("query_text", .jstr (pyStrip (payload.query_text.getD "")))]
       ∧ ∀ acts, photosHandler { env with actions := acts } payload = photosHandler env payload)
    ∧ (∀ (env : GHEnv) (payload : GHPayload) (e : String),
       env.llm (githubPrompt (payload.query_text.getD "No query provided")) = .error e →
       githubHandler env payload =
         .ok (ghEnvelope ("Error processing command: " ++ e) 500
           (payload.query_text.getD "No query provided"))
       ∧ ∀ acts, githubHandler { env with actions := acts } payload = githubHandler env payload) := by
  refine ⟨?_, ?_, ?_, ?_⟩
  · intro env f g payload h
    unfold photosHandler photosTryBody callGroqChat
    cases hm : photoMatch (pyLower (pyStrip (payload.query_text.getD "")))
        (payload.metadata.getD ⟨none, none⟩) with
    | some x =>
      obtain ⟨op, md⟩ := x
      simp only [hm]
    | none =>
      cases hk : env.groqKey with
      | none => simp only [hm, hk]
      | some k => simp only [hm, hk, h]
  · intro env f g payload h
    unfold githubHandler callModellakeChat
    simp only [h]
  · intro env payload k e hm hk hl
    have hcomp : ∀ env' : PhotosEnv, env'.groqKey = some k → env'.llm = env.llm →
        photosHandler env' payload =
          [("response_text", .jstr ("Error: " ++ e)),
           ("query_text", .jstr (pyStrip (payload.query_text.getD "")))] := by
      intro env' hk' hl'
      unfold photosHandler photosTryBody callGroqChat
      simp only [hm, hk', hl', hl, Except.map]
    refine ⟨hcomp env hk rfl, fun acts => ?_⟩
    rw [hcomp env hk rfl, hcomp { env with actions := acts } hk rfl]
  · intro env payload e hl
    have hcomp : ∀ env' : GHEnv, env'.llm = env.llm →
        githubHandler env' payload =
          .ok (ghEnvelope ("Error processing command: " ++ e) 500
            (payload.query_text.getD "No query provided")) := by
      intro env' hl'
      unfold githubHandler callModellakeChat
      simp only [hl', hl, Except.map]
    refine ⟨hcomp env rfl, fun acts => ?_⟩
    rw [hcomp env rfl, hcomp { env with actions := acts } rfl]

/-- Concrete photos environment whose Groq client fails. -/
def photosEnvLLMFail : PhotosEnv :=
  ⟨photoActsStub, some "key", fun _ => .error "APIConnectionError",
   fun _ => .error "Expecting value: line 1 column 1 (char 0)"⟩

/-- Witness for C8: an unmatched query with a failing client yields the
error envelope immediately. -/
theorem llm_invoked_at_most_once_witness :
    photosHandler photosEnvLLMFail ⟨some "do something vague", none⟩ =
      [("response_text", .jstr ("Error: " ++ "APIConnectionError")),
       ("query_text", .jstr (pyStrip ((some "do something vague" : Option String).getD "")))] :=
  (llm_invoked_at_most_once.2.2.1 photosEnvLLMFail ⟨some "do something vague", none⟩
    "key" "APIConnectionError" rfl rfl rfl).1
